import Mathlib

/-!
Verification development for the django-ca certificate-authority core
(profiles.py, views.py, and the CRL counter / CRL cache behavior).

Python code is shallowly embedded: dictionaries become structures or
association lists, in-place mutation becomes explicit state passing, and
exceptions become Except values.  Functions whose defining module is not
part of the sources at hand (subject.py, extensions.py, utils.py,
models.py) are modelled from the specification and marked as such in
their doc comments.
-/

namespace DjangoCA

/-- Python truthiness of an optional string: None and the empty string are falsy. -/
def truthyOpt : Option String → Bool
  | none => false
  | some v => !(v == "")

/-- Dictionary-update on one key: the override value wins when present. -/
def pick {α : Type} (o b : Option α) : Option α :=
  match o with
  | some v => some v
  | none => b

/-- Helper for whitespace splitting over a character list (structural recursion,
so that concrete evaluations reduce in the kernel). -/
def splitWsAux : List Char → List Char → List String
  | [], acc => if acc.isEmpty then [] else [String.mk acc.reverse]
  | c :: cs, acc =>
    if c.isWhitespace then
      if acc.isEmpty then splitWsAux cs [] else String.mk acc.reverse :: splitWsAux cs []
    else
      splitWsAux cs (c :: acc)

/-- Python str.split() with no arguments: split on runs of whitespace,
dropping empty tokens.  Used for ca.crl_url.split(); the subsequent
url.strip() in the source is a no-op on whitespace-split tokens. -/
def pySplit (s : String) : List String :=
  splitWsAux s.data []

/-- Split a character list on commas, keeping empty fields. -/
def splitCommaAux : List Char → List Char → List String
  | [], acc => [String.mk acc.reverse]
  | c :: cs, acc =>
    if c == ',' then String.mk acc.reverse :: splitCommaAux cs []
    else splitCommaAux cs (c :: acc)

/-- Strip leading and trailing whitespace from a character list. -/
def trimChars (l : List Char) : List Char :=
  ((l.dropWhile Char.isWhitespace).reverse.dropWhile Char.isWhitespace).reverse

/-- Modelled from the spec: utils.shlex_split is not among the sources; per the
spec an issuer-alternative-name string is split into comma-separated entries
with surrounding whitespace stripped (shell-like quoting is not modelled). -/
def shlex_split (s : String) : List String :=
  ((splitCommaAux s.data []).map (fun t => String.mk (trimChars t.data))).filter
    (fun t => !(t == ""))

/-- Modelled from the spec: subject.py is not among the sources.  A Subject is
a field-by-field mapping from attribute names to values, updated dict-style
(a later binding for the same key wins). -/
structure Subject where
  fields : List (String × String)
deriving DecidableEq, Repr

/-- Mapping lookup; with dict semantics the last binding for a key wins. -/
def Subject.get (s : Subject) (k : String) : Option String :=
  (s.fields.reverse.find? (fun kv => kv.1 == k)).map (fun kv => kv.2)

/-- Mapping write: drop older bindings of the key and bind it to the new value. -/
def Subject.set (s : Subject) (k v : String) : Subject :=
  ⟨(s.fields.filter (fun kv => !(kv.1 == k))) ++ [(k, v)]⟩

/-- Dict update: every field of the override is written into the base. -/
def Subject.update (base o : Subject) : Subject :=
  o.fields.foldl (fun acc kv => acc.set kv.1 kv.2) base

/-- The CommonName of a subject when it is Python-truthy (present and non-empty). -/
def Subject.getTruthyCN (s : Subject) : Option String :=
  match s.get ("CN") with
  | none => none
  | some v => if v == "" then none else some v

/-- A parsed general name, as produced by utils.parse_general_name. -/
inductive GeneralName
  | dns (s : String)
  | uri (s : String)
  | other (s : String)
deriving DecidableEq, Repr

/-- BasicConstraints values, tracked together with their construction site so
that which profile default takes effect is observable.  Modelled from the
spec: extensions.py (the typed BasicConstraints class) is not among the
sources. -/
inductive BasicConstraintsVal
  | emptyDefault
  | caFalseDefault
  | supplied (v : Nat)
deriving DecidableEq, Repr

/-- A CRLDistributionPoints entry; full_name is the list of URL strings. -/
structure DistributionPoint where
  full_name : List String
deriving DecidableEq, Repr

/-- AuthorityInformationAccess value with its ocsp and issuers sub-lists. -/
structure AIAVal where
  ocsp : List GeneralName
  issuers : List GeneralName
deriving DecidableEq, Repr

/-- Extension values that the claims never inspect are carried as opaque strings. -/
abbrev KeyUsageVal := String
abbrev ExtendedKeyUsageVal := String
abbrev TLSFeatureVal := String
abbrev AKIVal := String
abbrev SKIVal := String

/-- The extension mapping of a profile or certificate-to-be: one optional slot
per known extension key (a key maps to a value iff the slot is some). -/
structure ExtMap where
  basic_constraints : Option BasicConstraintsVal := none
  key_usage : Option KeyUsageVal := none
  extended_key_usage : Option ExtendedKeyUsageVal := none
  tls_feature : Option TLSFeatureVal := none
  ocsp_no_check : Option Unit := none
  authority_key_identifier : Option AKIVal := none
  crl_distribution_points : Option (List DistributionPoint) := none
  authority_information_access : Option AIAVal := none
  issuer_alternative_name : Option (List String) := none
  subject_alternative_name : Option (List GeneralName) := none
  subject_key_identifier : Option SKIVal := none
deriving DecidableEq, Repr

/-- The empty extension dictionary. -/
def ExtMap.empty : ExtMap := {}

/-- Python dict.update: keys present in the override replace those of the base. -/
def ExtMap.update (base o : ExtMap) : ExtMap where
  basic_constraints := pick o.basic_constraints base.basic_constraints
  key_usage := pick o.key_usage base.key_usage
  extended_key_usage := pick o.extended_key_usage base.extended_key_usage
  tls_feature := pick o.tls_feature base.tls_feature
  ocsp_no_check := pick o.ocsp_no_check base.ocsp_no_check
  authority_key_identifier := pick o.authority_key_identifier base.authority_key_identifier
  crl_distribution_points := pick o.crl_distribution_points base.crl_distribution_points
  authority_information_access := pick o.authority_information_access base.authority_information_access
  issuer_alternative_name := pick o.issuer_alternative_name base.issuer_alternative_name
  subject_alternative_name := pick o.subject_alternative_name base.subject_alternative_name
  subject_key_identifier := pick o.subject_key_identifier base.subject_key_identifier

/-- dict.setdefault on the BasicConstraints key. -/
def ExtMap.setdefaultBasicConstraints (m : ExtMap) (v : BasicConstraintsVal) : ExtMap :=
  match m.basic_constraints with
  | some _ => m
  | none => { m with basic_constraints := some v }

/-- A named issuance profile (profiles.py Profile, after construction). -/
structure Profile where
  name : String
  subject : Subject
  algorithm : String
  extensions : ExtMap
  cn_in_san : Bool
  expires : Nat
  issuer_name : Option Subject
  add_crl_url : Bool
  add_issuer_url : Bool
  add_ocsp_url : Bool
  add_issuer_alternative_name : Bool
  description : String
deriving DecidableEq, Repr

/-- The arguments of Profile.__init__.  The deprecated keyword arguments
(keyUsage, extendedKeyUsage, TLSFeature, desc, ocsp_no_check) are the kw
fields; a none/false kw field means the keyword was not passed. -/
structure ProfileArgs where
  name : String := ""
  subject : Option Subject := none
  algorithm : Option String := none
  extensions : Option ExtMap := none
  cn_in_san : Bool := true
  expires : Option Nat := none
  issuer_name : Option Subject := none
  description : String := ""
  add_crl_url : Bool := true
  add_ocsp_url : Bool := true
  add_issuer_url : Bool := true
  add_issuer_alternative_name : Bool := true
  kwKeyUsage : Option KeyUsageVal := none
  kwExtendedKeyUsage : Option ExtendedKeyUsageVal := none
  kwTLSFeature : Option TLSFeatureVal := none
  kwDesc : Option String := none
  kwOcspNoCheck : Bool := false
deriving DecidableEq, Repr

/-- The deprecated-keyword block of Profile.__init__ (lines 104-125): each
recognized legacy keyword is normalized into the extension mapping (desc is
handled on the description field instead and does not touch the mapping). -/
def Profile.applyDeprecatedKwargs (a : ProfileArgs) (m : ExtMap) : ExtMap :=
  let m := match a.kwKeyUsage with
    | some v => { m with key_usage := some v }
    | none => m
  let m := match a.kwExtendedKeyUsage with
    | some v => { m with extended_key_usage := some v }
    | none => m
  let m := match a.kwTLSFeature with
    | some v => { m with tls_feature := some v }
    | none => m
  if a.kwOcspNoCheck then { m with ocsp_no_check := some () } else m

/-- The extension mapping right after the first BasicConstraints default
(profiles.py line 102) and the deprecated-keyword processing, i.e. the state
just before the second setdefault at line 128. -/
def Profile.extensionsBeforeLine128 (a : ProfileArgs) : ExtMap :=
  Profile.applyDeprecatedKwargs a
    ((a.extensions.getD ExtMap.empty).setdefaultBasicConstraints BasicConstraintsVal.emptyDefault)

/-- Profile.__init__.  dflt_subject, dflt_algorithm and dflt_expires stand for
ca_settings.CA_DEFAULT_SUBJECT, the parse_hash_algorithm default and
ca_settings.CA_DEFAULT_EXPIRES; `expires or default` keeps Python falsiness
(0 counts as unset).  parse_hash_algorithm (utils.py, not among the sources)
is modelled as defaulting only. -/
def Profile.init (dflt_subject : Subject) (dflt_algorithm : String) (dflt_expires : Nat)
    (a : ProfileArgs) : Profile where
  name := a.name
  subject := match a.subject with
    | some s => s
    | none => dflt_subject
  algorithm := a.algorithm.getD dflt_algorithm
  extensions :=
    (Profile.extensionsBeforeLine128 a).setdefaultBasicConstraints
      BasicConstraintsVal.caFalseDefault
  cn_in_san := a.cn_in_san
  expires := match a.expires with
    | some e => if e == 0 then dflt_expires else e
    | none => dflt_expires
  issuer_name := a.issuer_name
  add_crl_url := a.add_crl_url
  add_issuer_url := a.add_issuer_url
  add_ocsp_url := a.add_ocsp_url
  add_issuer_alternative_name := a.add_issuer_alternative_name
  description := a.kwDesc.getD a.description

/-- The certificate-authority data consumed by the issuance pipeline
(models.py is not among the sources; the fields are those read by
profiles.py: crl_url, ocsp_url, issuer_url, issuer_alt_name, the CA subject
used as issuer name, and the authority key identifier extension value). -/
structure CA where
  serial : String
  crl_url : String
  ocsp_url : String
  issuer_url : String
  issuer_alt_name : String
  subject : Subject
  aki : AKIVal
deriving DecidableEq, Repr

/-- The errors create_cert can raise: an uncaught general-name parse failure
on a CA URL, the InvalidCommonName ValueError of _update_san_from_cn, and
the no-identity ValueError of the final validation. -/
inductive CreateCertError
  | parseError (s : String)
  | invalidCommonName (cn : String)
  | noIdentity
deriving DecidableEq, Repr

/-- setdefault of the AuthorityKeyIdentifier from the CA (profiles.py line 302). -/
def stepAki (exts : ExtMap) (ca : CA) : ExtMap :=
  match exts.authority_key_identifier with
  | some _ => exts
  | none => { exts with authority_key_identifier := some ca.aki }

/-- CRLDistributionPoints append from the CA (profiles.py lines 304-308): one
DistributionPoint whose full_name lists the whitespace-separated URLs of the
CA field is appended to the (possibly defaulted-empty) existing value. -/
def stepCrl (exts : ExtMap) (ca : CA) (add_crl_url : Bool) : ExtMap :=
  if add_crl_url && truthyOpt (some ca.crl_url) then
    let v := (exts.crl_distribution_points.getD []) ++ [⟨pySplit ca.crl_url⟩]
    { exts with crl_distribution_points := some v }
  else
    exts

/-- AuthorityInformationAccess ocsp append (profiles.py lines 310-312).
parse_general_name failure on the URL is an uncaught exception. -/
def stepOcsp (parse : String → Option GeneralName) (exts : ExtMap) (ca : CA)
    (add_ocsp_url : Bool) : Except CreateCertError ExtMap :=
  if add_ocsp_url && truthyOpt (some ca.ocsp_url) then
    match parse ca.ocsp_url with
    | none => Except.error (CreateCertError.parseError ca.ocsp_url)
    | some g =>
      let v := exts.authority_information_access.getD ⟨[], []⟩
      let v2 := { v with ocsp := v.ocsp ++ [g] }
      Except.ok { exts with authority_information_access := some v2 }
  else
    Except.ok exts

/-- AuthorityInformationAccess issuers append (profiles.py lines 314-318). -/
def stepIssuerUrl (parse : String → Option GeneralName) (exts : ExtMap) (ca : CA)
    (add_issuer_url : Bool) : Except CreateCertError ExtMap :=
  if add_issuer_url && truthyOpt (some ca.issuer_url) then
    match parse ca.issuer_url with
    | none => Except.error (CreateCertError.parseError ca.issuer_url)
    | some g =>
      let v := exts.authority_information_access.getD ⟨[], []⟩
      let v2 := { v with issuers := v.issuers ++ [g] }
      Except.ok { exts with authority_information_access := some v2 }
  else
    Except.ok exts

/-- IssuerAlternativeName extend from the CA (profiles.py lines 319-321). -/
def stepIan (exts : ExtMap) (ca : CA) (add_issuer_alternative_name : Bool) : ExtMap :=
  if add_issuer_alternative_name && truthyOpt (some ca.issuer_alt_name) then
    let v := (exts.issuer_alternative_name.getD []) ++ shlex_split ca.issuer_alt_name
    { exts with issuer_alternative_name := some v }
  else
    exts

/-- Profile._update_from_ca (profiles.py lines 292-326): sets the
AuthorityKeyIdentifier, appends CA-derived CRL/OCSP/issuer URLs and the
issuer alternative name, and returns the issuer name (the profile override
if set, else the CA subject). -/
def Profile.update_from_ca (parse : String → Option GeneralName) (p : Profile) (ca : CA)
    (exts : ExtMap) (add_crl_url add_ocsp_url add_issuer_url add_issuer_alternative_name : Bool) :
    Except CreateCertError (ExtMap × Subject) :=
  let e1 := stepAki exts ca
  let e2 := stepCrl e1 ca add_crl_url
  match stepOcsp parse e2 ca add_ocsp_url with
  | Except.error err => Except.error err
  | Except.ok e3 =>
    match stepIssuerUrl parse e3 ca add_issuer_url with
    | Except.error err => Except.error err
    | Except.ok e4 =>
      let e5 := stepIan e4 ca add_issuer_alternative_name
      let issuer := match p.issuer_name with
        | some n => n
        | none => ca.subject
      Except.ok (e5, issuer)

/-- Modelled from the spec: SubjectAlternativeName.get_common_name
(extensions.py, not among the sources) returns the value of the first DNS
entry of the SAN, if any. -/
def get_common_name (l : List GeneralName) : Option String :=
  (l.filterMap (fun g => match g with
    | GeneralName.dns s => some s
    | _ => none)).head?

/-- Profile._update_san_from_cn (profiles.py lines 328-341).  parse stands for
utils.parse_general_name; a parse result of none is an idna.IDNAError, which
this method converts to the InvalidCommonName ValueError.  When the subject
has a truthy CN and cn_in_san holds, the parsed CN is appended to the SAN
unless already present; when the subject has no truthy CN but a SAN exists,
the CN is backfilled from the SAN's first DNS entry. -/
def update_san_from_cn (parse : String → Option GeneralName) (cn_in_san : Bool)
    (subject : Subject) (extensions : ExtMap) : Except CreateCertError (Subject × ExtMap) :=
  match subject.getTruthyCN, cn_in_san with
  | some cnStr, true =>
    (match parse cnStr with
     | none => Except.error (CreateCertError.invalidCommonName cnStr)
     | some cn =>
       let old := extensions.subject_alternative_name.getD []
       let newSan := if cn ∈ old then old else old ++ [cn]
       Except.ok (subject, { extensions with subject_alternative_name := some newSan }))
  | _, _ =>
    if subject.getTruthyCN.isNone && extensions.subject_alternative_name.isSome then
      match get_common_name (extensions.subject_alternative_name.getD []) with
      | some cn => Except.ok (subject.set ("CN") cn, extensions)
      | none => Except.ok (subject, extensions)
    else
      Except.ok (subject, extensions)

/-- The data create_cert hands to the certificate builder: the final subject
and extension mapping, the issuer name, the resolved expiry and algorithm;
ski_added records the builder-level SubjectKeyIdentifier addition performed
when no explicit one was set. -/
structure CreateResult where
  subject : Subject
  extensions : ExtMap
  issuer : Subject
  expires : Nat
  algorithm : String
  ski_added : Bool
deriving DecidableEq, Repr

/-- The prefix of create_cert up to and including _update_san_from_cn: the
profile extension mapping updated with the caller overrides, the CA-derived
appends, the subject resolution, and the SAN/CN update.  Returns the final
(subject, extensions, issuer name) triple. -/
def Profile.sanPipeline (parse : String → Option GeneralName) (p : Profile) (ca : CA)
    (subjectOv : Subject) (extsOv : ExtMap)
    (cn_in_sanOv add_crl_urlOv add_ocsp_urlOv add_issuer_urlOv add_ianOv : Option Bool) :
    Except CreateCertError (Subject × ExtMap × Subject) :=
  let cn_in_san := cn_in_sanOv.getD p.cn_in_san
  let add_crl_url := add_crl_urlOv.getD p.add_crl_url
  let add_ocsp_url := add_ocsp_urlOv.getD p.add_ocsp_url
  let add_issuer_url := add_issuer_urlOv.getD p.add_issuer_url
  let add_ian := add_ianOv.getD p.add_issuer_alternative_name
  let cert_extensions := p.extensions.update extsOv
  match p.update_from_ca parse ca cert_extensions add_crl_url add_ocsp_url add_issuer_url add_ian with
  | Except.error e => Except.error e
  | Except.ok (e1, issuer) =>
    let cert_subject := p.subject.update subjectOv
    match update_san_from_cn parse cn_in_san cert_subject e1 with
    | Except.error e => Except.error e
    | Except.ok (s2, e2) => Except.ok (s2, e2, issuer)

/-- The identity validation of create_cert (profiles.py lines 254-256).  The
source reads the caller-passed subject and the caller-passed extensions dict
here, not the resolved cert_subject/cert_extensions; because dict.update
aliases the caller extension objects into cert_extensions and the later SAN
append mutates in place, the SAN value seen through the caller dict is the
final SAN value whenever the caller supplied a SAN at all. -/
def identityCheckFails (subjectOv : Subject) (extsOv : ExtMap) (finalExts : ExtMap) : Bool :=
  !(truthyOpt (subjectOv.get ("CN"))) &&
    (extsOv.subject_alternative_name.isNone ||
      (finalExts.subject_alternative_name.getD []).isEmpty)

/-- Profile.create_cert (profiles.py lines 147-275), up to the data handed to
the certificate builder.  The pre_issue_cert signal and the actual signing
(CSR public key, CA private key) are external collaborators and are not
modelled; the result is the builder input. -/
def Profile.create_cert (parse : String → Option GeneralName) (p : Profile) (ca : CA)
    (subjectOv : Subject) (extsOv : ExtMap)
    (expiresOv : Option Nat) (algorithmOv : Option String)
    (cn_in_sanOv add_crl_urlOv add_ocsp_urlOv add_issuer_urlOv add_ianOv : Option Bool) :
    Except CreateCertError CreateResult :=
  match p.sanPipeline parse ca subjectOv extsOv cn_in_sanOv add_crl_urlOv add_ocsp_urlOv
      add_issuer_urlOv add_ianOv with
  | Except.error e => Except.error e
  | Except.ok (s2, e2, issuer) =>
    if identityCheckFails subjectOv extsOv e2 then
      Except.error CreateCertError.noIdentity
    else
      Except.ok
        { subject := s2
          extensions := e2
          issuer := issuer
          expires := expiresOv.getD p.expires
          algorithm := algorithmOv.getD p.algorithm
          ski_added := e2.subject_key_identifier.isNone }

/-- The ten-value revocation reason enumeration shared by CRL entries and the
OCSP responder. -/
inductive RevocationReason
  | unspecified
  | keyCompromise
  | caCompromise
  | affiliationChanged
  | superseded
  | cessationOfOperation
  | certificateHold
  | privilegeWithdrawn
  | aaCompromise
  | removeFromCRL
deriving DecidableEq, Repr

/-- A stored certificate row (models.py is not among the sources; these are the
fields read by views.py: serial, owning CA, and the revocation state). -/
structure CertRecord where
  serial : String
  ca_serial : String
  revoked : Bool
  revoked_date : Option Nat
  revoked_reason : Option RevocationReason
deriving DecidableEq, Repr

/-- A stored certificate-authority row as seen by the OCSP responder: serial,
name, optional parent, and its own revocation state (used in CA-status mode). -/
structure CARecord where
  serial : String
  name : String
  parent_serial : Option String
  revoked : Bool
  revoked_date : Option Nat
  revoked_reason : Option RevocationReason
deriving DecidableEq, Repr

/-- The revocation view of an OCSP lookup target (a leaf certificate or, in
CA-status mode, a child CA). -/
structure Revocable where
  revoked : Bool
  revoked_date : Option Nat
  revoked_reason : Option RevocationReason
deriving DecidableEq, Repr

def CertRecord.toRevocable (c : CertRecord) : Revocable :=
  ⟨c.revoked, c.revoked_date, c.revoked_reason⟩

def CARecord.toRevocable (c : CARecord) : Revocable :=
  ⟨c.revoked, c.revoked_date, c.revoked_reason⟩

/-- The persistence backend queried by the responder. -/
structure Db where
  cas : List CARecord
  certs : List CertRecord
deriving DecidableEq, Repr

/-- The per-view OCSP configuration (views.py OCSPBaseView class attributes). -/
structure OcspConfig where
  ca : String
  ca_ocsp : Bool
  expires : Nat
deriving DecidableEq, Repr

/-- Whether loading the responder key/cert and signing succeed; when false the
corresponding Python calls (file I/O, cryptography) raise. -/
structure OcspEnv where
  responderOk : Bool
deriving DecidableEq, Repr

/-- One extension of a decoded OCSP request: its criticality, whether its value
is a recognized nonce extension, and the nonce payload. -/
structure OcspRequestExtension where
  critical : Bool
  isNonce : Bool
  nonceValue : Nat
deriving DecidableEq, Repr

/-- A decoded OCSP request (serial number of the target and the extensions). -/
structure OcspRequestData where
  serialNumber : Nat
  extensions : List OcspRequestExtension
deriving DecidableEq, Repr

/-- Certificate status vocabulary of the OCSP response. -/
inductive OcspCertStatus
  | good
  | revoked
  | unknown
deriving DecidableEq, Repr

/-- A signed successful OCSP response as built by process_ocsp_request: status,
revocation time/reason, and the echoed nonce (value and criticality). -/
structure OcspSuccess where
  status : OcspCertStatus
  revocationTime : Option Nat
  revocationReason : Option RevocationReason
  nonce : Option (Nat × Bool)
deriving DecidableEq, Repr

/-- A well-formed OCSP wire response. -/
inductive OcspResponse
  | malformedRequest
  | internalError
  | success (r : OcspSuccess)
deriving DecidableEq, Repr

/-- Modelled from the spec: utils.int_to_hex is not among the sources; it
renders the request serial number the way serials are stored. -/
def int_to_hex (n : Nat) : String :=
  String.mk (Nat.toDigits 16 n)

/-- CertificateAuthority.objects.get_by_serial_or_cn (models.py manager, not
among the sources): per the spec, resolve the CA by serial or name. -/
def get_ca (db : Db) (ident : String) : Option CARecord :=
  db.cas.find? (fun c => c.serial == ident || c.name == ident)

/-- OCSPBaseView.get_cert (views.py lines 153-157): in CA-status mode, a child
CA of the resolved CA with the requested serial; otherwise a certificate of
that CA with the requested serial. -/
def get_cert (db : Db) (cfg : OcspConfig) (ca : CARecord) (serial : String) : Option Revocable :=
  if cfg.ca_ocsp then
    (db.cas.find? (fun c => c.parent_serial == some ca.serial && c.serial == serial)).map
      CARecord.toRevocable
  else
    (db.certs.find? (fun c => c.ca_serial == ca.serial && c.serial == serial)).map
      CertRecord.toRevocable

/-- Modelled from the spec: Certificate.get_revocation_time (models.py, not
among the sources) is the stored revocation time when revoked, else None. -/
def get_revocation_time (c : Revocable) : Option Nat :=
  if c.revoked then c.revoked_date else none

/-- Modelled from the spec: Certificate.get_revocation_reason (models.py, not
among the sources) is the stored revocation reason when revoked, else None. -/
def get_revocation_reason (c : Revocable) : Option RevocationReason :=
  if c.revoked then c.revoked_reason else none

/-- OCSPView.process_ocsp_request (views.py lines 189-251, the cryptography
implementation).  The argument data is the decoded request, none standing for
bytes that fail to decode.  Uncaught exceptions (responder key/cert loading
and signing, abstracted by OcspEnv) surface as Except.error. -/
def process_ocsp_request (env : OcspEnv) (db : Db) (cfg : OcspConfig)
    (data : Option OcspRequestData) : Except Unit OcspResponse :=
  match data with
  | none => Except.ok OcspResponse.malformedRequest
  | some req =>
    if req.extensions.any (fun e => e.critical && !e.isNonce) then
      Except.ok OcspResponse.malformedRequest
    else
      match get_ca db cfg.ca with
      | none => Except.ok OcspResponse.internalError
      | some ca =>
        match get_cert db cfg ca (int_to_hex req.serialNumber) with
        | none => Except.ok OcspResponse.internalError
        | some cert =>
          if env.responderOk then
            Except.ok (OcspResponse.success
              { status := if cert.revoked then OcspCertStatus.revoked else OcspCertStatus.good
                revocationTime := get_revocation_time cert
                revocationReason := get_revocation_reason cert
                nonce := (req.extensions.find? (fun e => e.isNonce)).map
                  (fun e => (e.nonceValue, e.critical)) })
          else
            Except.error ()

/-- OCSPBaseView.get (views.py lines 135-140): the whole request processing is
wrapped in try/except, every exception degrading to self.fail(). -/
def ocsp_get (env : OcspEnv) (db : Db) (cfg : OcspConfig)
    (data : Option OcspRequestData) : OcspResponse :=
  match process_ocsp_request env db cfg data with
  | Except.ok r => r
  | Except.error _ => OcspResponse.internalError

/-- OCSPBaseView.post (views.py lines 142-143): the request body is handed to
process_ocsp_request with no surrounding try/except, so exceptions escape. -/
def ocsp_post (env : OcspEnv) (db : Db) (cfg : OcspConfig)
    (data : Option OcspRequestData) : Except Unit OcspResponse :=
  process_ocsp_request env db cfg data

/-- Modelled from the spec: the persisted CRL-number counters of models.py
(not among the sources).  One counter per (CA serial, scope, counter key); a
never-used counter reads 0; counter key none is the default per-(CA, scope)
counter. -/
structure CrlCounterState where
  counters : (String × Option String × Option String) → Nat

/-- Modelled from the spec: the CRL-number behavior of
CertificateAuthority.get_crl (models.py, not among the sources).  The CRL
number is read from the counter identified by (CA, scope, counter key), and
the counter is incremented and persisted atomically on the same generation;
the CRL body, scoping and signing are outside the claims and not modelled. -/
def get_crl (s : CrlCounterState) (ca_serial : String) (scope counter : Option String) :
    Nat × CrlCounterState :=
  let k := (ca_serial, scope, counter)
  let n := s.counters k
  (n, ⟨fun k2 => if k2 = k then n + 1 else s.counters k2⟩)

/-- A per-CA override row of a CRL-distribution profile. -/
structure CrlOverride where
  skip : Bool
  password : Option String
deriving DecidableEq, Repr

/-- One configured CRL-distribution profile: scope, encodings, digest, expiry
and the per-CA override table. -/
structure CrlProfileConfig where
  scope : String
  encodings : List String
  digest : String
  expires : Nat
  overrides : List (String × CrlOverride)
deriving DecidableEq, Repr

/-- The shared CRL cache, keyed by (CA serial, digest, encoding, scope);
values are the encoded CRL bytes; a slot holding none is absent. -/
abbrev CrlCacheKey := String × String × String × String

abbrev CrlCache := CrlCacheKey → Option (List Nat)

/-- Cache store. -/
def cacheSet (cache : CrlCache) (k : CrlCacheKey) (v : List Nat) : CrlCache :=
  fun k2 => if k2 = k then some v else cache k2

/-- The effective override of a CRL profile for one CA. -/
def effectiveOverride (cfg : CrlProfileConfig) (serial : String) : Option CrlOverride :=
  (cfg.overrides.find? (fun e => e.1 == serial)).map (fun e => e.2)

/-- The encodings of one profile processed for one CA: each successfully
generated encoding is stored under its cache key; a failed generation stores
nothing for that slot. -/
def cacheOneProfile (gen : CrlProfileConfig → Option String → String → Except Unit (List Nat))
    (serial : String) (cfg : CrlProfileConfig) (cache : CrlCache) : CrlCache :=
  cfg.encodings.foldl (fun cache enc =>
    match gen cfg ((effectiveOverride cfg serial).bind (fun o => o.password)) enc with
    | Except.error _ => cache
    | Except.ok bytes => cacheSet cache (serial, cfg.digest, enc, cfg.scope) bytes) cache

/-- Modelled from the spec: CertificateAuthority.cache_crls (models.py, not
among the sources).  For each configured CRL-distribution profile, unless the
override marks this CA skip, the CRL is generated per encoding with the
override password and stored in the shared cache; a generation failure (gen
returning Except.error, e.g. a wrong key password) is caught and leaves that
cache slot unset.  The function is total: no failure propagates to the
caller. -/
def cache_crls (gen : CrlProfileConfig → Option String → String → Except Unit (List Nat))
    (configs : List CrlProfileConfig) (serial : String) (cache : CrlCache) : CrlCache :=
  configs.foldl (fun cache cfg =>
    if ((effectiveOverride cfg serial).map (fun o => o.skip)).getD false then cache
    else cacheOneProfile gen serial cfg cache) cache

/-! ### Concrete fixtures used by witnesses and counterexamples -/

/-- A total general-name parser used for concrete evaluations. -/
def parseDns : String → Option GeneralName := fun s => some (GeneralName.dns s)

def subjEmpty : Subject := ⟨[]⟩

def subjCn : Subject := ⟨[("CN", "example.com")]⟩

/-- A profile whose default subject carries a CommonName and that otherwise
keeps the constructor defaults. -/
def profileCn : Profile :=
  Profile.init subjEmpty ("sha512") 365 { name := "webserver", subject := some subjCn }

/-- A profile with an empty default subject and otherwise the defaults. -/
def profilePlain : Profile :=
  Profile.init subjEmpty ("sha512") 365 { name := "webserver" }

/-- A CA with no URLs configured. -/
def caPlain : CA where
  serial := "1"
  crl_url := ""
  ocsp_url := ""
  issuer_url := ""
  issuer_alt_name := ""
  subject := ⟨[("CN", "ca.example.com")]⟩
  aki := "aki"

/-- A CA whose CRL-URL field holds two whitespace-separated URLs. -/
def caTwoUrls : CA :=
  { caPlain with crl_url := "http://crl.example.com http://crl.example.org" }

def caOne : CARecord where
  serial := "ca1"
  name := "root"
  parent_serial := none
  revoked := false
  revoked_date := none
  revoked_reason := none

def certOne : CertRecord where
  serial := "a"
  ca_serial := "ca1"
  revoked := false
  revoked_date := none
  revoked_reason := none

def certRev : CertRecord where
  serial := "a"
  ca_serial := "ca1"
  revoked := true
  revoked_date := some 100
  revoked_reason := some RevocationReason.keyCompromise

def dbOne : Db := { cas := [caOne], certs := [certOne] }

def dbRev : Db := { cas := [caOne], certs := [certRev] }

def cfgOne : OcspConfig := { ca := "root", ca_ocsp := false, expires := 600 }

def cfgMissing : OcspConfig := { ca := "other", ca_ocsp := false, expires := 600 }

def envOk : OcspEnv := ⟨true⟩

def envBad : OcspEnv := ⟨false⟩

def reqPlain : OcspRequestData := { serialNumber := 10, extensions := [] }

def reqUnknown : OcspRequestData := { serialNumber := 11, extensions := [] }

def reqCritical : OcspRequestData :=
  { serialNumber := 10, extensions := [{ critical := true, isNonce := false, nonceValue := 0 }] }

/-- A fresh counter state: every CRL counter reads 0. -/
def sZero : CrlCounterState := ⟨fun _ => 0⟩

/-- An empty CRL cache. -/
def cacheEmpty : CrlCache := fun _ => none

def ovSkip : CrlOverride := { skip := true, password := none }

def ovWrongPw : CrlOverride := { skip := false, password := some ("wrong") }

def cfgCaScope : CrlProfileConfig where
  scope := "ca"
  encodings := ["DER", "PEM"]
  digest := "sha512"
  expires := 86400
  overrides := [("serial1", ovSkip)]

def cfgUserScope : CrlProfileConfig where
  scope := "user"
  encodings := ["DER", "PEM"]
  digest := "sha512"
  expires := 86400
  overrides := [("serial1", ovWrongPw)]

/-- A generator that always fails, standing for CRL generation attempted with
a wrong key password. -/
def genFail : CrlProfileConfig → Option String → String → Except Unit (List Nat) :=
  fun _ _ _ => Except.error ()

/-- The extension mapping of profileCn after the CA-derived update against
caPlain: the BasicConstraints default plus the CA authority key identifier. -/
def extsAkiW : ExtMap :=
  { basic_constraints := some BasicConstraintsVal.emptyDefault
    authority_key_identifier := some ("aki") }

/-- extsAkiW after the CN-append step for CommonName example.com. -/
def extsSanW : ExtMap :=
  { basic_constraints := some BasicConstraintsVal.emptyDefault
    authority_key_identifier := some ("aki")
    subject_alternative_name := some [GeneralName.dns ("example.com")] }

/-- The final extension mapping when issuing against caTwoUrls: extsSanW plus
the appended CRLDistributionPoints entry listing the CA's two URLs. -/
def extsC5W : ExtMap :=
  { basic_constraints := some BasicConstraintsVal.emptyDefault
    authority_key_identifier := some ("aki")
    crl_distribution_points :=
      some [⟨["http://crl.example.com", "http://crl.example.org"]⟩]
    subject_alternative_name := some [GeneralName.dns ("example.com")] }

/-- The builder data produced by issuing profileCn against caTwoUrls with the
subject override subjCn. -/
def crW : CreateResult :=
  { subject := subjCn
    extensions := extsC5W
    issuer := ⟨[("CN", "ca.example.com")]⟩
    expires := 365
    algorithm := "sha512"
    ski_added := true }

/-! ### Helper lemmas about the dictionary embeddings -/

theorem pick_none_right {α : Type} (o : Option α) : pick o none = o := by
  cases o <;> rfl

theorem pick_some {α : Type} (v : α) (b : Option α) : pick (some v) b = some v := rfl

theorem truthyOpt_pick_false {o b : Option String} (h : truthyOpt (pick o b) = false) :
    truthyOpt o = false := by
  cases o
  · rfl
  · simpa [pick] using h

theorem find?_filter_comm {α : Type} (l : List α) (p q : α → Bool)
    (h : ∀ x, p x = true → q x = true) : (l.filter q).find? p = l.find? p := by
  induction l with
  | nil => rfl
  | cons a t ih =>
    by_cases hq : q a = true
    · rw [List.filter_cons_of_pos hq]
      by_cases hp : p a = true
      · rw [List.find?_cons_of_pos _ hp, List.find?_cons_of_pos _ hp]
      · rw [List.find?_cons_of_neg _ hp, List.find?_cons_of_neg _ hp, ih]
    · have hp : ¬p a = true := fun hpa => hq (h a hpa)
      rw [List.filter_cons_of_neg hq, List.find?_cons_of_neg _ hp, ih]

theorem Subject.get_cons (k0 v0 : String) (t : List (String × String)) (k : String) :
    Subject.get ⟨(k0, v0) :: t⟩ k =
      pick (Subject.get ⟨t⟩ k) (if k0 == k then some v0 else none) := by
  unfold Subject.get
  simp only [List.reverse_cons, List.find?_append]
  by_cases h : (k0 == k) = true
  · cases hf : List.find? (fun kv => kv.1 == k) t.reverse <;>
      simp [hf, List.find?, h, pick, Option.or]
  · cases hf : List.find? (fun kv => kv.1 == k) t.reverse <;>
      simp [hf, List.find?, h, pick, Option.or]

theorem Subject.get_set_self (s : Subject) (k v : String) :
    (s.set k v).get k = some v := by
  unfold Subject.set Subject.get
  simp [List.find?_append]

theorem Subject.get_set_ne (s : Subject) (k v k' : String) (h : k' ≠ k) :
    (s.set k v).get k' = s.get k' := by
  unfold Subject.set Subject.get
  have h1 : ((k, v).1 == k') = false := by simp [Ne.symm h]
  rw [List.reverse_append]
  simp only [List.reverse_cons, List.reverse_nil, List.nil_append, List.singleton_append]
  rw [List.find?_cons, h1, ← List.filter_reverse]
  rw [find?_filter_comm]
  intro x hx
  have hx2 : x.1 = k' := by simpa using hx
  simp [hx2, h]

theorem Subject.get_update (base o : Subject) (k : String) :
    (base.update o).get k = pick (o.get k) (base.get k) := by
  rcases o with ⟨l⟩
  induction l generalizing base with
  | nil =>
    show (Subject.update base ⟨[]⟩).get k = pick (Subject.get ⟨[]⟩ k) (base.get k)
    rfl
  | cons kv t ih =>
    have hstep : Subject.update base ⟨kv :: t⟩ = Subject.update (base.set kv.1 kv.2) ⟨t⟩ := rfl
    rw [hstep, ih, Subject.get_cons]
    cases hg : Subject.get ⟨t⟩ k with
    | some v => rfl
    | none =>
      by_cases hk : (kv.1 == k) = true
      · have hk2 : kv.1 = k := by simpa using hk
        rw [hk2] at *
        rw [Subject.get_set_self]
        simp [pick, hk]
      · have hk2 : k ≠ kv.1 := fun he => hk (by simp [he])
        rw [Subject.get_set_ne _ _ _ _ hk2]
        simp [pick, hk]

theorem applyDeprecatedKwargs_basic_constraints (a : ProfileArgs) (m : ExtMap) :
    (Profile.applyDeprecatedKwargs a m).basic_constraints = m.basic_constraints := by
  unfold Profile.applyDeprecatedKwargs
  cases a.kwKeyUsage <;> cases a.kwExtendedKeyUsage <;> cases a.kwTLSFeature <;>
    cases a.kwOcspNoCheck <;> rfl

theorem extensionsBeforeLine128_basic_constraints (a : ProfileArgs) :
    (Profile.extensionsBeforeLine128 a).basic_constraints =
      match (a.extensions.getD ExtMap.empty).basic_constraints with
      | some v => some v
      | none => some BasicConstraintsVal.emptyDefault := by
  unfold Profile.extensionsBeforeLine128
  rw [applyDeprecatedKwargs_basic_constraints]
  unfold ExtMap.setdefaultBasicConstraints
  cases h : (a.extensions.getD ExtMap.empty).basic_constraints <;> simp [h]

/-- C10: after Profile construction the extension mapping always contains a
BasicConstraints entry; when the caller supplied none, the entry is the
empty-constructed default inserted before the deprecated-keyword processing
(profiles.py line 102), and the second setdefault with BasicConstraints ca
False (line 128) is an identity on the mapping, so that later default never
takes effect. -/
theorem C10_basic_constraints_default (d : Subject) (alg : String) (e : Nat)
    (a : ProfileArgs) :
    ((Profile.init d alg e a).extensions.basic_constraints.isSome = true)
    ∧ ((Profile.init d alg e a).extensions.basic_constraints =
        match (a.extensions.getD ExtMap.empty).basic_constraints with
        | some v => some v
        | none => some BasicConstraintsVal.emptyDefault)
    ∧ ((Profile.extensionsBeforeLine128 a).setdefaultBasicConstraints
        BasicConstraintsVal.caFalseDefault = Profile.extensionsBeforeLine128 a) := by
  have hne : (Profile.extensionsBeforeLine128 a).basic_constraints ≠ none := by
    rw [extensionsBeforeLine128_basic_constraints]
    cases (a.extensions.getD ExtMap.empty).basic_constraints <;> simp
  have hid : (Profile.extensionsBeforeLine128 a).setdefaultBasicConstraints
      BasicConstraintsVal.caFalseDefault = Profile.extensionsBeforeLine128 a := by
    unfold ExtMap.setdefaultBasicConstraints
    rcases hh : (Profile.extensionsBeforeLine128 a).basic_constraints with _ | v
    · exact absurd hh hne
    · rfl
  have hext : (Profile.init d alg e a).extensions =
      Profile.extensionsBeforeLine128 a := hid
  refine ⟨?_, ?_, hid⟩
  · rw [hext]
    rw [extensionsBeforeLine128_basic_constraints]
    cases (a.extensions.getD ExtMap.empty).basic_constraints <;> rfl
  · rw [hext, extensionsBeforeLine128_basic_constraints]


/-- Witness for C10 at a concrete profile construction with no caller-supplied
extensions: the BasicConstraints entry is the empty-constructed default. -/
theorem C10_basic_constraints_default_witness :
    profileCn.extensions.basic_constraints = some BasicConstraintsVal.emptyDefault := by
  have h := C10_basic_constraints_default subjEmpty ("sha512") 365
    { name := "webserver", subject := some subjCn }
  exact h.2.1

/-- C2: starting from counters that read zero for the used keys, three
successive CRL generations against the same (CA, scope, counter key) yield
CRL numbers 0, 1 and 2 in order; a generation against a different counter
key then still yields 0; and from any state, two consecutive generations on
one key return strictly increasing numbers (the second is the first plus
one), even with otherwise-identical inputs. -/
theorem C2_crl_numbering (s : CrlCounterState) (ca : String) (scope k k2 : Option String)
    (h : s.counters (ca, scope, k) = 0) (h2 : s.counters (ca, scope, k2) = 0)
    (hne : k2 ≠ k) :
    (get_crl s ca scope k).1 = 0
    ∧ (get_crl (get_crl s ca scope k).2 ca scope k).1 = 1
    ∧ (get_crl (get_crl (get_crl s ca scope k).2 ca scope k).2 ca scope k).1 = 2
    ∧ (get_crl (get_crl (get_crl (get_crl s ca scope k).2 ca scope k).2 ca scope k).2
        ca scope k2).1 = 0
    ∧ ∀ t : CrlCounterState,
        (get_crl (get_crl t ca scope k).2 ca scope k).1 = (get_crl t ca scope k).1 + 1 := by
  refine ⟨?_, ?_, ?_, ?_, ?_⟩
  · simp [get_crl, h]
  · simp [get_crl, h]
  · simp [get_crl, h]
  · simp [get_crl, h, h2, hne]
  · intro t
    simp [get_crl]

/-- Witness for C2 at a concrete fresh state and concrete keys. -/
theorem C2_crl_numbering_witness :
    (get_crl sZero ("ca") none (some ("test"))).1 = 0
    ∧ (get_crl (get_crl sZero ("ca") none (some ("test"))).2 ("ca") none (some ("test"))).1 = 1
    ∧ (get_crl (get_crl (get_crl sZero ("ca") none (some ("test"))).2 ("ca") none
        (some ("test"))).2 ("ca") none (some ("test"))).1 = 2
    ∧ (get_crl (get_crl (get_crl (get_crl sZero ("ca") none (some ("test"))).2 ("ca") none
        (some ("test"))).2 ("ca") none (some ("test"))).2 ("ca") none none).1 = 0 := by
  have hmain := C2_crl_numbering sZero ("ca") none (some ("test")) none rfl rfl (by decide)
  exact ⟨hmain.1, hmain.2.1, hmain.2.2.1, hmain.2.2.2.1⟩

theorem cacheFold_none (gen : CrlProfileConfig → Option String → String → Except Unit (List Nat))
    (serial : String) (cfg : CrlProfileConfig) (pw : Option String) (K : CrlCacheKey)
    (l : List String) :
    ∀ cache : CrlCache, cache K = none →
    (∀ enc ∈ l, (serial, cfg.digest, enc, cfg.scope) = K →
      gen cfg pw enc = Except.error ()) →
    (l.foldl (fun cache enc =>
      match gen cfg pw enc with
      | Except.error _ => cache
      | Except.ok bytes => cacheSet cache (serial, cfg.digest, enc, cfg.scope) bytes) cache) K
      = none := by
  induction l with
  | nil =>
    intro cache h0 _
    exact h0
  | cons enc t ih =>
    intro cache h0 hw
    simp only [List.foldl_cons]
    rcases hg : gen cfg pw enc with _ | bytes
    · exact ih cache h0 (fun e he hk => hw e (List.mem_cons_of_mem _ he) hk)
    · have hkey : (serial, cfg.digest, enc, cfg.scope) ≠ K := by
        intro hk
        rw [hw enc (List.mem_cons_self _ _) hk] at hg
        cases hg
      have h0b : cacheSet cache (serial, cfg.digest, enc, cfg.scope) bytes K = none := by
        unfold cacheSet
        rw [if_neg (fun hK => hkey hK.symm)]
        exact h0
      exact ih _ h0b (fun e he hk => hw e (List.mem_cons_of_mem _ he) hk)

/-- C9: cache_crls is a total function of the cache (no generation failure
raises past it), and for a cache key whose slot is initially absent, if every
configured profile writing that key is either marked skip for this CA or has
its generation fail (e.g. wrong key password), the slot is still absent
afterwards: the failed or skipped combination leaves no stale or partial
value. -/
theorem C9_cache_crls_absent
    (gen : CrlProfileConfig → Option String → String → Except Unit (List Nat))
    (configs : List CrlProfileConfig) (serial : String) (K : CrlCacheKey) :
    ∀ cache : CrlCache, cache K = none →
    (∀ cfg ∈ configs,
      (((effectiveOverride cfg serial).map (fun o => o.skip)).getD false = true)
      ∨ (∀ enc ∈ cfg.encodings, (serial, cfg.digest, enc, cfg.scope) = K →
          gen cfg ((effectiveOverride cfg serial).bind (fun o => o.password)) enc
            = Except.error ())) →
    cache_crls gen configs serial cache K = none := by
  induction configs with
  | nil =>
    intro cache h0 _
    exact h0
  | cons cfg t ih =>
    intro cache h0 h1
    unfold cache_crls
    simp only [List.foldl_cons]
    by_cases hskip : ((effectiveOverride cfg serial).map (fun o => o.skip)).getD false = true
    · rw [if_pos hskip]
      exact ih cache h0 (fun c hc => h1 c (List.mem_cons_of_mem _ hc))
    · rw [if_neg hskip]
      have hw := (h1 cfg (List.mem_cons_self _ _)).resolve_left hskip
      have h0b : cacheOneProfile gen serial cfg cache K = none :=
        cacheFold_none gen serial cfg _ K cfg.encodings cache h0 hw
      exact ih (cacheOneProfile gen serial cfg cache) h0b
        (fun c hc => h1 c (List.mem_cons_of_mem _ hc))

/-- Witness for C9: a skipped profile and a failing profile leave both their
cache slots absent on a concrete configuration. -/
theorem C9_cache_crls_absent_witness :
    cache_crls genFail [cfgCaScope, cfgUserScope] ("serial1") cacheEmpty
      ("serial1", "sha512", "DER", "ca") = none
    ∧ cache_crls genFail [cfgCaScope, cfgUserScope] ("serial1") cacheEmpty
      ("serial1", "sha512", "DER", "user") = none := by
  have harg : ∀ K : CrlCacheKey, ∀ cfg ∈ [cfgCaScope, cfgUserScope],
      (((effectiveOverride cfg ("serial1")).map (fun o => o.skip)).getD false = true)
      ∨ (∀ enc ∈ cfg.encodings, (("serial1"), cfg.digest, enc, cfg.scope) = K →
          genFail cfg ((effectiveOverride cfg ("serial1")).bind (fun o => o.password)) enc
            = Except.error ()) := by
    intro K cfg hc
    cases hc with
    | head => exact Or.inl rfl
    | tail _ hc2 =>
      cases hc2 with
      | head => exact Or.inr (fun enc he hk => rfl)
      | tail _ hc3 => cases hc3
  constructor
  · exact C9_cache_crls_absent genFail [cfgCaScope, cfgUserScope] ("serial1")
      ("serial1", "sha512", "DER", "ca") cacheEmpty rfl
      (harg ("serial1", "sha512", "DER", "ca"))
  · exact C9_cache_crls_absent genFail [cfgCaScope, cfgUserScope] ("serial1")
      ("serial1", "sha512", "DER", "user") cacheEmpty rfl
      (harg ("serial1", "sha512", "DER", "user"))

/-- C3: for an OCSP request that decodes, carries no unrecognized critical
extension, and whose CA and target certificate lookups succeed (and whose
responder key/cert load and signing succeed), the responder answers with a
signed success response whose status is REVOKED together with the stored
revocation time and the stored revocation reason when the certificate is
revoked, and GOOD when it is not; the UNKNOWN status is never produced for
such a present certificate. -/
theorem C3_ocsp_status (env : OcspEnv) (db : Db) (cfg : OcspConfig) (req : OcspRequestData)
    (ca : CARecord) (cert : Revocable)
    (hext : req.extensions.any (fun e => e.critical && !e.isNonce) = false)
    (hca : get_ca db cfg.ca = some ca)
    (hcert : get_cert db cfg ca (int_to_hex req.serialNumber) = some cert)
    (henv : env.responderOk = true) :
    ∃ r : OcspSuccess,
      process_ocsp_request env db cfg (some req) = Except.ok (OcspResponse.success r)
      ∧ (cert.revoked = true →
          r.status = OcspCertStatus.revoked
          ∧ r.revocationTime = cert.revoked_date
          ∧ r.revocationReason = cert.revoked_reason)
      ∧ (cert.revoked = false → r.status = OcspCertStatus.good)
      ∧ r.status ≠ OcspCertStatus.unknown
      ∧ r.nonce = (req.extensions.find? (fun e => e.isNonce)).map
          (fun e => (e.nonceValue, e.critical)) := by
  refine ⟨{ status := if cert.revoked then OcspCertStatus.revoked else OcspCertStatus.good
            revocationTime := get_revocation_time cert
            revocationReason := get_revocation_reason cert
            nonce := (req.extensions.find? (fun e => e.isNonce)).map
              (fun e => (e.nonceValue, e.critical)) }, ?_, ?_, ?_, ?_, rfl⟩
  · simp [process_ocsp_request, hext, hca, hcert, henv]
  · intro hr
    simp [hr, get_revocation_time, get_revocation_reason]
  · intro hr
    simp [hr]
  · cases hr : cert.revoked <;> simp [hr]

/-- Witness for C3: a concrete revoked certificate yields REVOKED with the
stored time and reason; a concrete unrevoked certificate yields GOOD. -/
theorem C3_ocsp_status_witness :
    (∃ r : OcspSuccess,
      process_ocsp_request envOk dbRev cfgOne (some reqPlain)
        = Except.ok (OcspResponse.success r)
      ∧ (certRev.toRevocable.revoked = true →
          r.status = OcspCertStatus.revoked
          ∧ r.revocationTime = certRev.toRevocable.revoked_date
          ∧ r.revocationReason = certRev.toRevocable.revoked_reason)
      ∧ (certRev.toRevocable.revoked = false → r.status = OcspCertStatus.good)
      ∧ r.status ≠ OcspCertStatus.unknown
      ∧ r.nonce = (reqPlain.extensions.find? (fun e => e.isNonce)).map
          (fun e => (e.nonceValue, e.critical)))
    ∧ (∃ r : OcspSuccess,
      process_ocsp_request envOk dbOne cfgOne (some reqPlain)
        = Except.ok (OcspResponse.success r)
      ∧ (certOne.toRevocable.revoked = true →
          r.status = OcspCertStatus.revoked
          ∧ r.revocationTime = certOne.toRevocable.revoked_date
          ∧ r.revocationReason = certOne.toRevocable.revoked_reason)
      ∧ (certOne.toRevocable.revoked = false → r.status = OcspCertStatus.good)
      ∧ r.status ≠ OcspCertStatus.unknown
      ∧ r.nonce = (reqPlain.extensions.find? (fun e => e.isNonce)).map
          (fun e => (e.nonceValue, e.critical))) :=
  ⟨C3_ocsp_status envOk dbRev cfgOne reqPlain caOne certRev.toRevocable rfl rfl rfl rfl,
   C3_ocsp_status envOk dbOne cfgOne reqPlain caOne certOne.toRevocable rfl rfl rfl rfl⟩

/-- C6: a decodable OCSP request containing at least one critical extension
that is not a recognized nonce extension is answered with a malformed-request
response, for every database and responder environment alike: the responder
does not proceed to lookup or signing. -/
theorem C6_critical_extension_malformed (cfg : OcspConfig) (req : OcspRequestData)
    (hext : ∃ e ∈ req.extensions, e.critical = true ∧ e.isNonce = false) :
    ∀ (env : OcspEnv) (db : Db),
      process_ocsp_request env db cfg (some req) = Except.ok OcspResponse.malformedRequest := by
  intro env db
  have hany : req.extensions.any (fun e => e.critical && !e.isNonce) = true := by
    rw [List.any_eq_true]
    obtain ⟨e, he, h1, h2⟩ := hext
    exact ⟨e, he, by simp [h1, h2]⟩
  simp [process_ocsp_request, hany]

/-- Witness for C6 on a concrete request with a critical non-nonce extension. -/
theorem C6_critical_extension_malformed_witness :
    process_ocsp_request envOk dbOne cfgOne (some reqCritical)
      = Except.ok OcspResponse.malformedRequest :=
  C6_critical_extension_malformed cfgOne reqCritical
    ⟨{ critical := true, isNonce := false, nonceValue := 0 }, List.mem_singleton.mpr rfl,
      rfl, rfl⟩ envOk dbOne

/-- C7: a lookup miss is answered with the generic internal-error response,
both when the configured CA cannot be resolved and when the CA resolves but
the requested certificate is unknown beneath it; the two wire responses are
identical, so the responder leaks no certificate-existence distinction. -/
theorem C7_lookup_miss_generic (env1 : OcspEnv) (db1 : Db) (cfg1 : OcspConfig)
    (req1 : OcspRequestData) (env2 : OcspEnv) (db2 : Db) (cfg2 : OcspConfig)
    (req2 : OcspRequestData) (ca2 : CARecord)
    (hext1 : req1.extensions.any (fun e => e.critical && !e.isNonce) = false)
    (hca1 : get_ca db1 cfg1.ca = none)
    (hext2 : req2.extensions.any (fun e => e.critical && !e.isNonce) = false)
    (hca2 : get_ca db2 cfg2.ca = some ca2)
    (hcert2 : get_cert db2 cfg2 ca2 (int_to_hex req2.serialNumber) = none) :
    process_ocsp_request env1 db1 cfg1 (some req1) = Except.ok OcspResponse.internalError
    ∧ process_ocsp_request env2 db2 cfg2 (some req2) = Except.ok OcspResponse.internalError
    ∧ process_ocsp_request env1 db1 cfg1 (some req1)
        = process_ocsp_request env2 db2 cfg2 (some req2) := by
  have h1 : process_ocsp_request env1 db1 cfg1 (some req1)
      = Except.ok OcspResponse.internalError := by
    simp [process_ocsp_request, hext1, hca1]
  have h2 : process_ocsp_request env2 db2 cfg2 (some req2)
      = Except.ok OcspResponse.internalError := by
    simp [process_ocsp_request, hext2, hca2, hcert2]
  exact ⟨h1, h2, h1.trans h2.symm⟩

/-- Witness for C7: an unknown-CA configuration and an unknown-serial request
both produce the same internal-error response on concrete data. -/
theorem C7_lookup_miss_generic_witness :
    process_ocsp_request envOk dbOne cfgMissing (some reqPlain)
      = Except.ok OcspResponse.internalError
    ∧ process_ocsp_request envOk dbOne cfgOne (some reqUnknown)
      = Except.ok OcspResponse.internalError
    ∧ process_ocsp_request envOk dbOne cfgMissing (some reqPlain)
      = process_ocsp_request envOk dbOne cfgOne (some reqUnknown) :=
  C7_lookup_miss_generic envOk dbOne cfgMissing reqPlain envOk dbOne cfgOne reqUnknown
    caOne rfl rfl rfl rfl rfl

/-- C8: the GET handler wraps processing in try/except and degrades every
failure to a well-formed response, but the POST handler does not: on a
concrete request whose responder key cannot be loaded, the POST path lets
the exception escape while the GET path returns the internal-error OCSP
response.  This contradicts the requirement that GET and POST alike always
return a well-formed OCSP response. -/
theorem C8_post_exception_escapes :
    ocsp_post envBad dbOne cfgOne (some reqPlain) = Except.error ()
    ∧ ocsp_get envBad dbOne cfgOne (some reqPlain) = OcspResponse.internalError :=
  ⟨rfl, rfl⟩


/-! ### Structural lemmas about the create_cert pipeline -/

theorem stepAki_san (exts : ExtMap) (ca : CA) :
    (stepAki exts ca).subject_alternative_name = exts.subject_alternative_name := by
  unfold stepAki
  cases exts.authority_key_identifier <;> rfl

theorem stepAki_crldp (exts : ExtMap) (ca : CA) :
    (stepAki exts ca).crl_distribution_points = exts.crl_distribution_points := by
  unfold stepAki
  cases exts.authority_key_identifier <;> rfl

theorem stepCrl_san (exts : ExtMap) (ca : CA) (b : Bool) :
    (stepCrl exts ca b).subject_alternative_name = exts.subject_alternative_name := by
  unfold stepCrl
  split <;> rfl

theorem stepCrl_crldp_formula (exts : ExtMap) (ca : CA) (h : ca.crl_url ≠ "") :
    (stepCrl exts ca true).crl_distribution_points
      = some ((exts.crl_distribution_points.getD []) ++ [⟨pySplit ca.crl_url⟩]) := by
  unfold stepCrl
  rw [if_pos]
  simp [truthyOpt, h]

theorem stepOcsp_ok_san (parse : String → Option GeneralName) (exts : ExtMap) (ca : CA)
    (b : Bool) (e' : ExtMap) (h : stepOcsp parse exts ca b = Except.ok e') :
    e'.subject_alternative_name = exts.subject_alternative_name := by
  unfold stepOcsp at h
  split at h
  · split at h
    · cases h
    · cases h
      rfl
  · cases h
    rfl

theorem stepOcsp_ok_crldp (parse : String → Option GeneralName) (exts : ExtMap) (ca : CA)
    (b : Bool) (e' : ExtMap) (h : stepOcsp parse exts ca b = Except.ok e') :
    e'.crl_distribution_points = exts.crl_distribution_points := by
  unfold stepOcsp at h
  split at h
  · split at h
    · cases h
    · cases h
      rfl
  · cases h
    rfl

theorem stepIssuerUrl_ok_san (parse : String → Option GeneralName) (exts : ExtMap) (ca : CA)
    (b : Bool) (e' : ExtMap) (h : stepIssuerUrl parse exts ca b = Except.ok e') :
    e'.subject_alternative_name = exts.subject_alternative_name := by
  unfold stepIssuerUrl at h
  split at h
  · split at h
    · cases h
    · cases h
      rfl
  · cases h
    rfl

theorem stepIssuerUrl_ok_crldp (parse : String → Option GeneralName) (exts : ExtMap) (ca : CA)
    (b : Bool) (e' : ExtMap) (h : stepIssuerUrl parse exts ca b = Except.ok e') :
    e'.crl_distribution_points = exts.crl_distribution_points := by
  unfold stepIssuerUrl at h
  split at h
  · split at h
    · cases h
    · cases h
      rfl
  · cases h
    rfl

theorem stepIan_san (exts : ExtMap) (ca : CA) (b : Bool) :
    (stepIan exts ca b).subject_alternative_name = exts.subject_alternative_name := by
  unfold stepIan
  split <;> rfl

theorem stepIan_crldp (exts : ExtMap) (ca : CA) (b : Bool) :
    (stepIan exts ca b).crl_distribution_points = exts.crl_distribution_points := by
  unfold stepIan
  split <;> rfl

theorem update_from_ca_ok_san (parse : String → Option GeneralName) (p : Profile) (ca : CA)
    (exts : ExtMap) (a b c d : Bool) (e' : ExtMap) (iss : Subject)
    (h : p.update_from_ca parse ca exts a b c d = Except.ok (e', iss)) :
    e'.subject_alternative_name = exts.subject_alternative_name := by
  unfold Profile.update_from_ca at h
  simp only [] at h
  rcases h3 : stepOcsp parse (stepCrl (stepAki exts ca) ca a) ca b with _ | e3
  · rw [h3] at h
    cases h
  · rw [h3] at h
    simp only [] at h
    rcases h4 : stepIssuerUrl parse e3 ca c with _ | e4
    · rw [h4] at h
      cases h
    · rw [h4] at h
      simp only [] at h
      cases h
      rw [stepIan_san, stepIssuerUrl_ok_san parse e3 ca c e4 h4,
        stepOcsp_ok_san parse (stepCrl (stepAki exts ca) ca a) ca b e3 h3,
        stepCrl_san, stepAki_san]

theorem update_from_ca_ok_crldp (parse : String → Option GeneralName) (p : Profile) (ca : CA)
    (exts : ExtMap) (a b c d : Bool) (e' : ExtMap) (iss : Subject)
    (h : p.update_from_ca parse ca exts a b c d = Except.ok (e', iss)) :
    e'.crl_distribution_points
      = (stepCrl (stepAki exts ca) ca a).crl_distribution_points := by
  unfold Profile.update_from_ca at h
  simp only [] at h
  rcases h3 : stepOcsp parse (stepCrl (stepAki exts ca) ca a) ca b with _ | e3
  · rw [h3] at h
    cases h
  · rw [h3] at h
    simp only [] at h
    rcases h4 : stepIssuerUrl parse e3 ca c with _ | e4
    · rw [h4] at h
      cases h
    · rw [h4] at h
      simp only [] at h
      cases h
      rw [stepIan_crldp, stepIssuerUrl_ok_crldp parse e3 ca c e4 h4,
        stepOcsp_ok_crldp parse (stepCrl (stepAki exts ca) ca a) ca b e3 h3]

theorem update_san_from_cn_ok_crldp (parse : String → Option GeneralName) (cn : Bool)
    (s : Subject) (e : ExtMap) (s2 : Subject) (e2 : ExtMap)
    (h : update_san_from_cn parse cn s e = Except.ok (s2, e2)) :
    e2.crl_distribution_points = e.crl_distribution_points := by
  unfold update_san_from_cn at h
  split at h
  · split at h
    · cases h
    · cases h
      rfl
  · split at h
    · split at h
      · cases h
        rfl
      · cases h
        rfl
    · cases h
      rfl

theorem update_san_from_cn_cn_parse_fails (parse : String → Option GeneralName)
    (s : Subject) (e : ExtMap) (c : String)
    (hcn : s.getTruthyCN = some c) (hp : parse c = none) :
    update_san_from_cn parse true s e
      = Except.error (CreateCertError.invalidCommonName c) := by
  unfold update_san_from_cn
  rw [hcn]
  simp [hp]

theorem update_san_from_cn_cn_appends (parse : String → Option GeneralName)
    (s : Subject) (e : ExtMap) (c : String) (g : GeneralName)
    (hcn : s.getTruthyCN = some c) (hp : parse c = some g) :
    update_san_from_cn parse true s e
      = Except.ok (s, { e with
          subject_alternative_name := some
            (if g ∈ e.subject_alternative_name.getD []
             then e.subject_alternative_name.getD []
             else e.subject_alternative_name.getD [] ++ [g]) }) := by
  unfold update_san_from_cn
  rw [hcn]
  simp [hp]

theorem update_san_from_cn_cn_off (parse : String → Option GeneralName)
    (s : Subject) (e : ExtMap) (c : String) (hcn : s.getTruthyCN = some c) :
    update_san_from_cn parse false s e = Except.ok (s, e) := by
  unfold update_san_from_cn
  rw [hcn]
  simp [hcn]

theorem sanPipeline_of_update_from_ca (parse : String → Option GeneralName) (p : Profile)
    (ca : CA) (subjectOv : Subject) (extsOv : ExtMap)
    (cnOv aCrl aOcsp aIss aIan : Option Bool) (e1 : ExtMap) (iss : Subject)
    (hca : p.update_from_ca parse ca (p.extensions.update extsOv) (aCrl.getD p.add_crl_url)
      (aOcsp.getD p.add_ocsp_url) (aIss.getD p.add_issuer_url)
      (aIan.getD p.add_issuer_alternative_name) = Except.ok (e1, iss)) :
    p.sanPipeline parse ca subjectOv extsOv cnOv aCrl aOcsp aIss aIan
      = match update_san_from_cn parse (cnOv.getD p.cn_in_san)
          (p.subject.update subjectOv) e1 with
        | Except.error e => Except.error e
        | Except.ok (s2, e2) => Except.ok (s2, e2, iss) := by
  unfold Profile.sanPipeline
  simp only []
  rw [hca]


theorem create_cert_of_pipeline (parse : String → Option GeneralName) (p : Profile)
    (ca : CA) (subjectOv : Subject) (extsOv : ExtMap) (expOv : Option Nat)
    (algOv : Option String) (cnOv aCrl aOcsp aIss aIan : Option Bool)
    (s2 : Subject) (e2 : ExtMap) (iss : Subject)
    (hpipe : p.sanPipeline parse ca subjectOv extsOv cnOv aCrl aOcsp aIss aIan
      = Except.ok (s2, e2, iss)) :
    p.create_cert parse ca subjectOv extsOv expOv algOv cnOv aCrl aOcsp aIss aIan
      = if identityCheckFails subjectOv extsOv e2
        then Except.error CreateCertError.noIdentity
        else Except.ok
          { subject := s2
            extensions := e2
            issuer := iss
            expires := expOv.getD p.expires
            algorithm := algOv.getD p.algorithm
            ski_added := e2.subject_key_identifier.isNone } := by
  unfold Profile.create_cert
  rw [hpipe]

/-- C1 (counterexample): the original claim states that the identity
validation passes whenever the resolved subject carries a CommonName; but on
a profile whose default subject supplies the CommonName and a call with no
caller-supplied subject or extensions, create_cert raises the no-identity
error even though the resolved subject has a CommonName (the check at
profiles.py lines 254-256 reads the caller-passed subject and extensions,
not the resolved ones). -/
theorem C1_counterexample :
    profileCn.create_cert parseDns caPlain subjEmpty ExtMap.empty none none none none none
      none none = Except.error CreateCertError.noIdentity
    ∧ (profileCn.subject.update subjEmpty).getTruthyCN = some ("example.com") :=
  ⟨rfl, rfl⟩

/-- C1 (amended): once the pipeline reaches the validation (no parse failure),
create_cert fails with the no-identity error exactly when the caller-supplied
subject override carries no truthy CommonName and the caller-supplied
extensions carry no SubjectAlternativeName whose final (post CN-append,
aliased) value is non-empty; in particular the failure direction of the
original claim still holds: a resolved subject with no truthy CommonName
together with an empty final SubjectAlternativeName always fails with the
no-identity error. -/
theorem C1_identity_validation (parse : String → Option GeneralName) (p : Profile) (ca : CA)
    (subjectOv : Subject) (extsOv : ExtMap) (expOv : Option Nat) (algOv : Option String)
    (cnOv aCrl aOcsp aIss aIan : Option Bool) (s2 : Subject) (e2 : ExtMap) (iss : Subject)
    (hpipe : p.sanPipeline parse ca subjectOv extsOv cnOv aCrl aOcsp aIss aIan
      = Except.ok (s2, e2, iss)) :
    (p.create_cert parse ca subjectOv extsOv expOv algOv cnOv aCrl aOcsp aIss aIan
        = Except.error CreateCertError.noIdentity
      ↔ truthyOpt (subjectOv.get ("CN")) = false
        ∧ (extsOv.subject_alternative_name = none
           ∨ e2.subject_alternative_name.getD [] = []))
    ∧ (truthyOpt ((p.subject.update subjectOv).get ("CN")) = false →
        e2.subject_alternative_name.getD [] = [] →
        p.create_cert parse ca subjectOv extsOv expOv algOv cnOv aCrl aOcsp aIss aIan
          = Except.error CreateCertError.noIdentity) := by
  have hc := create_cert_of_pipeline parse p ca subjectOv extsOv expOv algOv cnOv aCrl
    aOcsp aIss aIan s2 e2 iss hpipe
  have hiff : identityCheckFails subjectOv extsOv e2 = true
      ↔ truthyOpt (subjectOv.get ("CN")) = false
        ∧ (extsOv.subject_alternative_name = none
           ∨ e2.subject_alternative_name.getD [] = []) := by
    unfold identityCheckFails
    simp [List.isEmpty_iff, Option.isNone_iff_eq_none]
  constructor
  · constructor
    · intro h
      rw [hc] at h
      by_cases hf : identityCheckFails subjectOv extsOv e2 = true
      · exact hiff.mp hf
      · rw [if_neg hf] at h
        cases h
    · intro h
      rw [hc, if_pos (hiff.mpr h)]
  · intro h1 h2
    have hov : truthyOpt (subjectOv.get ("CN")) = false := by
      rw [Subject.get_update] at h1
      exact truthyOpt_pick_false h1
    rw [hc, if_pos (hiff.mpr ⟨hov, Or.inr h2⟩)]

/-- Witness for the amended C1 on a concrete call whose caller-supplied
subject carries the CommonName: the validation passes, matching the
characterization. -/
theorem C1_identity_validation_witness :
    (profileCn.create_cert parseDns caPlain subjCn ExtMap.empty none none none none none
        none none = Except.error CreateCertError.noIdentity
      ↔ truthyOpt (subjCn.get ("CN")) = false
        ∧ (ExtMap.empty.subject_alternative_name = none
           ∨ extsSanW.subject_alternative_name.getD [] = [])) :=
  (C1_identity_validation parseDns profileCn caPlain subjCn ExtMap.empty none none none
    none none none none subjCn extsSanW ⟨[("CN", "ca.example.com")]⟩ rfl).1

/-- C4: for a resolved subject with a truthy CommonName, when the effective
cn_in_san is true the CommonName is parsed as a general name (an IDNA parse
failure raises the invalid-common-name error) and appended to the
SubjectAlternativeName only if not already present, and any issued result
then carries the parsed name in its SubjectAlternativeName; when cn_in_san
is false, the CN-append step returns the extension mapping unchanged, so the
CommonName is not added to the SubjectAlternativeName. -/
theorem C4_cn_in_san (parse : String → Option GeneralName) (p : Profile) (ca : CA)
    (subjectOv : Subject) (extsOv : ExtMap) (cnOv aCrl aOcsp aIss aIan : Option Bool)
    (c : String) (e1 : ExtMap) (iss : Subject)
    (hca : p.update_from_ca parse ca (p.extensions.update extsOv) (aCrl.getD p.add_crl_url)
      (aOcsp.getD p.add_ocsp_url) (aIss.getD p.add_issuer_url)
      (aIan.getD p.add_issuer_alternative_name) = Except.ok (e1, iss))
    (hcn : (p.subject.update subjectOv).getTruthyCN = some c) :
    (cnOv.getD p.cn_in_san = true → parse c = none →
      ∀ (expOv : Option Nat) (algOv : Option String),
        p.create_cert parse ca subjectOv extsOv expOv algOv cnOv aCrl aOcsp aIss aIan
          = Except.error (CreateCertError.invalidCommonName c))
    ∧ (∀ g : GeneralName, cnOv.getD p.cn_in_san = true → parse c = some g →
        p.sanPipeline parse ca subjectOv extsOv cnOv aCrl aOcsp aIss aIan
          = Except.ok (p.subject.update subjectOv,
              { e1 with
                  subject_alternative_name := some
                    (if g ∈ e1.subject_alternative_name.getD []
                     then e1.subject_alternative_name.getD []
                     else e1.subject_alternative_name.getD [] ++ [g]) }, iss)
        ∧ (∀ (expOv : Option Nat) (algOv : Option String) (r : CreateResult),
            p.create_cert parse ca subjectOv extsOv expOv algOv cnOv aCrl aOcsp aIss aIan
              = Except.ok r → g ∈ r.extensions.subject_alternative_name.getD []))
    ∧ (cnOv.getD p.cn_in_san = false →
        p.sanPipeline parse ca subjectOv extsOv cnOv aCrl aOcsp aIss aIan
          = Except.ok (p.subject.update subjectOv, e1, iss)) := by
  have hpb := sanPipeline_of_update_from_ca parse p ca subjectOv extsOv cnOv aCrl aOcsp aIss
    aIan e1 iss hca
  refine ⟨?_, ?_, ?_⟩
  · intro hflag hp expOv algOv
    unfold Profile.create_cert
    rw [hpb, hflag,
      update_san_from_cn_cn_parse_fails parse (p.subject.update subjectOv) e1 c hcn hp]
  · intro g hflag hp
    have hsan := update_san_from_cn_cn_appends parse (p.subject.update subjectOv) e1 c g
      hcn hp
    have hpipe2 : p.sanPipeline parse ca subjectOv extsOv cnOv aCrl aOcsp aIss aIan
        = Except.ok (p.subject.update subjectOv,
            { e1 with
                subject_alternative_name := some
                  (if g ∈ e1.subject_alternative_name.getD []
                   then e1.subject_alternative_name.getD []
                   else e1.subject_alternative_name.getD [] ++ [g]) }, iss) := by
      rw [hpb, hflag, hsan]
    refine ⟨hpipe2, ?_⟩
    intro expOv algOv r hr
    rw [create_cert_of_pipeline parse p ca subjectOv extsOv expOv algOv cnOv aCrl aOcsp
      aIss aIan _ _ _ hpipe2] at hr
    by_cases hf : identityCheckFails subjectOv extsOv
        { e1 with
            subject_alternative_name := some
              (if g ∈ e1.subject_alternative_name.getD []
               then e1.subject_alternative_name.getD []
               else e1.subject_alternative_name.getD [] ++ [g]) } = true
    · rw [if_pos hf] at hr
      cases hr
    · rw [if_neg hf] at hr
      cases hr
      by_cases hmem : g ∈ e1.subject_alternative_name.getD []
      · simp [hmem]
      · simp [hmem]
  · intro hflag
    rw [hpb, hflag,
      update_san_from_cn_cn_off parse (p.subject.update subjectOv) e1 c hcn]

/-- Witness for C4 on concrete data: the CN-derived DNS name is appended to
the (previously absent) SubjectAlternativeName. -/
theorem C4_cn_in_san_witness :
    profileCn.sanPipeline parseDns caPlain subjEmpty ExtMap.empty none none none none none
      = Except.ok (subjCn, extsSanW, ⟨[("CN", "ca.example.com")]⟩) := by
  have h := (C4_cn_in_san parseDns profileCn caPlain subjEmpty ExtMap.empty none none none
    none none ("example.com") extsAkiW ⟨[("CN", "ca.example.com")]⟩ rfl rfl).2.1
    (GeneralName.dns ("example.com")) rfl rfl
  exact h.1

/-- C5: with add_crl_url effective and a CA whose CRL-URL field splits into
two whitespace-separated URLs, every successful issuance carries a
CRLDistributionPoints value equal to the pre-existing entries (none dropped
by the CA-derived append) extended with exactly one DistributionPoint whose
full_name lists the two URLs in field order. -/
theorem C5_crl_urls_appended (parse : String → Option GeneralName) (p : Profile) (ca : CA)
    (subjectOv : Subject) (extsOv : ExtMap) (expOv : Option Nat) (algOv : Option String)
    (cnOv aCrl aOcsp aIss aIan : Option Bool) (u1 u2 : String) (r : CreateResult)
    (hsplit : pySplit ca.crl_url = [u1, u2])
    (heff : aCrl.getD p.add_crl_url = true)
    (hres : p.create_cert parse ca subjectOv extsOv expOv algOv cnOv aCrl aOcsp aIss aIan
      = Except.ok r) :
    r.extensions.crl_distribution_points
      = some (((p.extensions.update extsOv).crl_distribution_points.getD [])
          ++ [⟨[u1, u2]⟩]) := by
  have hurl : ca.crl_url ≠ "" := by
    intro he
    rw [he] at hsplit
    have h0 : pySplit "" = [] := rfl
    rw [h0] at hsplit
    cases hsplit
  rcases hpl : p.sanPipeline parse ca subjectOv extsOv cnOv aCrl aOcsp aIss aIan
    with _ | ⟨s2, e2, iss⟩
  · unfold Profile.create_cert at hres
    rw [hpl] at hres
    cases hres
  · rw [create_cert_of_pipeline parse p ca subjectOv extsOv expOv algOv cnOv aCrl aOcsp
      aIss aIan _ _ _ hpl] at hres
    by_cases hf : identityCheckFails subjectOv extsOv e2 = true
    · rw [if_pos hf] at hres
      cases hres
    · rw [if_neg hf] at hres
      cases hres
      unfold Profile.sanPipeline at hpl
      simp only [] at hpl
      rcases hca : p.update_from_ca parse ca (p.extensions.update extsOv)
          (aCrl.getD p.add_crl_url) (aOcsp.getD p.add_ocsp_url) (aIss.getD p.add_issuer_url)
          (aIan.getD p.add_issuer_alternative_name) with _ | ⟨e1, iss1⟩
      · rw [hca] at hpl
        cases hpl
      · rw [hca] at hpl
        simp only [] at hpl
        rcases hsan : update_san_from_cn parse (cnOv.getD p.cn_in_san)
            (p.subject.update subjectOv) e1 with _ | ⟨s2b, e2b⟩
        · rw [hsan] at hpl
          cases hpl
        · rw [hsan] at hpl
          simp only [] at hpl
          cases hpl
          have hA := update_san_from_cn_ok_crldp parse (cnOv.getD p.cn_in_san)
            (p.subject.update subjectOv) e1 s2 e2 hsan
          have hB := update_from_ca_ok_crldp parse p ca (p.extensions.update extsOv)
            (aCrl.getD p.add_crl_url) (aOcsp.getD p.add_ocsp_url)
            (aIss.getD p.add_issuer_url) (aIan.getD p.add_issuer_alternative_name)
            e1 iss hca
          rw [heff] at hB
          show e2.crl_distribution_points = _
          rw [hA, hB, stepCrl_crldp_formula (stepAki (p.extensions.update extsOv) ca) ca hurl,
            stepAki_crldp, hsplit]

/-- Witness for C5 on concrete data: issuing against a CA with two CRL URLs
yields one DistributionPoint carrying both URLs in order. -/
theorem C5_crl_urls_appended_witness :
    crW.extensions.crl_distribution_points
      = some [DistributionPoint.mk ["http://crl.example.com", "http://crl.example.org"]] :=
  C5_crl_urls_appended parseDns profileCn caTwoUrls subjCn ExtMap.empty none none none none
    none none none ("http://crl.example.com") ("http://crl.example.org") crW rfl rfl rfl

end DjangoCA
